import Mathlib

/-!
Verification model of the leapWP engagement and progression engine
(`src/leap_ielts`).  The Python sources are shallowly embedded: each
mutable-state method becomes a pure function from the old state to the new
state together with its return value, SQLAlchemy repository queries over the
store become functions on explicit lists (kept in the order the query
produces, most recent first where the query orders by `completed_at` desc),
Python floats become exact rationals, Python ints become `Int`, and
`datetime` values are identified with their UTC calendar day, an integer
day number whose epoch (day 0) is a Monday, so that `weekday d = d % 7`
agrees with Python's `datetime.weekday()` numbering (Monday = 0, Friday = 4).
-/

namespace LeapIELTS

/-- Calendar days since the epoch; day 0 is a Monday. -/
abbrev Day := Int

/-- Python `datetime.weekday()`: 0 = Monday, ..., 4 = Friday, 6 = Sunday. -/
def weekday (d : Day) : Int := d % 7

/-- `SkillType` from `data/models.py`, in its source enumeration order. -/
inductive Skill where
  | reading
  | writing
  | listening
  | speaking
deriving DecidableEq

/-- Iteration order of `SkillType` (Python enum order). -/
def Skill.all : List Skill := [.reading, .writing, .listening, .speaking]

/-- `TimelineGroup` from `data/models.py`. -/
inductive TimelineGroup where
  | short_term
  | medium_term
  | long_term
deriving DecidableEq

/-- `IncentiveType` from `data/models.py`. -/
inductive IncentiveType where
  | career_counseling_t1
  | career_counseling_t2
  | premium_content
  | group_priority
deriving DecidableEq

/-- The engine-relevant constants of `utils/config.py` `Config`. -/
structure Config where
  WEEKEND_RECOVERY_ENABLED : Bool
  DAILY_GOAL_DURATION_MIN : Int
  DAILY_GOAL_DURATION_MAX : Int
  GOAL_PRIORITY_SCALING : ℚ
  GOAL_RECENCY_PENALTY : ℚ
  LEADERBOARD_PERIOD_DAYS : Int
  LEADERBOARD_ACTIVE_DAYS_WEIGHT : ℚ
  LEADERBOARD_STREAK_WEIGHT : ℚ
  LEADERBOARD_COMPLETION_WEIGHT : ℚ
  SKILL_ANALYSIS_TRIGGER_COUNT : Nat
  SKILL_MOVING_AVERAGE_ALPHA : ℚ
  SKILL_MAX_CHANGE_PER_UPDATE : ℚ
  INCENTIVE_TIER1_STREAK : Int
  INCENTIVE_TIER1_ACTIVITIES : Int
  INCENTIVE_TIER1_POINTS : Int
  INCENTIVE_TIER2_STREAK : Int
  INCENTIVE_TIER2_ACTIVITIES : Int
  INCENTIVE_TIER2_POINTS : Int
  INCENTIVE_PREMIUM_STREAK : Int
  INCENTIVE_PREMIUM_SKILL_ATTEMPTS : Nat
  SCORE_ADJUSTMENTS : List ((ℚ × ℚ) × ℚ)

/-- The default values of the `Config` class attributes. -/
def Config.default : Config where
  WEEKEND_RECOVERY_ENABLED := true
  DAILY_GOAL_DURATION_MIN := 5
  DAILY_GOAL_DURATION_MAX := 15
  GOAL_PRIORITY_SCALING := 2
  GOAL_RECENCY_PENALTY := 0.1
  LEADERBOARD_PERIOD_DAYS := 30
  LEADERBOARD_ACTIVE_DAYS_WEIGHT := 0.4
  LEADERBOARD_STREAK_WEIGHT := 0.3
  LEADERBOARD_COMPLETION_WEIGHT := 0.3
  SKILL_ANALYSIS_TRIGGER_COUNT := 5
  SKILL_MOVING_AVERAGE_ALPHA := 0.3
  SKILL_MAX_CHANGE_PER_UPDATE := 0.5
  INCENTIVE_TIER1_STREAK := 7
  INCENTIVE_TIER1_ACTIVITIES := 30
  INCENTIVE_TIER1_POINTS := 500
  INCENTIVE_TIER2_STREAK := 30
  INCENTIVE_TIER2_ACTIVITIES := 100
  INCENTIVE_TIER2_POINTS := 2000
  INCENTIVE_PREMIUM_STREAK := 14
  INCENTIVE_PREMIUM_SKILL_ATTEMPTS := 5
  SCORE_ADJUSTMENTS :=
    [((90, 100), 0.3),
     ((80, 89), 0.2),
     ((70, 79), 0.1),
     ((60, 69), 0.0),
     ((50, 59), -0.1),
     ((0, 49), -0.2)]

/-- The engine-relevant columns of the `User` model (`data/models.py`). -/
structure User where
  id : Int
  target_score : ℚ
  preparation_timeline : TimelineGroup
  reading_level : ℚ
  writing_level : ℚ
  listening_level : ℚ
  speaking_level : ℚ
  total_points : Int
  current_streak : Int
  longest_streak : Int
  last_activity_date : Option Day
  total_activities : Int
deriving DecidableEq

/-- `User.get_skill_level` from `data/models.py`. -/
def User.get_skill_level (u : User) (skill : Skill) : ℚ :=
  match skill with
  | .reading => u.reading_level
  | .writing => u.writing_level
  | .listening => u.listening_level
  | .speaking => u.speaking_level

/-- `User.set_skill_level` from `data/models.py` (clamped to 0.0-9.0). -/
def User.set_skill_level (u : User) (skill : Skill) (level : ℚ) : User :=
  let clamped := max 0 (min 9 level)
  match skill with
  | .reading => { u with reading_level := clamped }
  | .writing => { u with writing_level := clamped }
  | .listening => { u with listening_level := clamped }
  | .speaking => { u with speaking_level := clamped }

/-- The engine-relevant columns of a `StreakHistory` row: its streak count,
whether `recovery_used` was set, and whether it was written by the
broken-streak path (`broken_on` set). -/
structure StreakHistory where
  user_id : Int
  streak_count : Int
  recovery_used : Bool
  broken : Bool
deriving DecidableEq

/-- `StreakCalculator._is_weekend_recovery_valid`
(`core/algorithms/streak_calculator.py`): recovery is enabled, the last
activity fell on a Friday and today is a Monday. -/
def is_weekend_recovery_valid (cfg : Config) (today : Day)
    (last_activity_datetime : Day) : Bool :=
  if !cfg.WEEKEND_RECOVERY_ENABLED then false
  else decide (weekday last_activity_datetime = 4) && decide (weekday today = 0)

/-- `StreakCalculator.update_streak` (`core/algorithms/streak_calculator.py`).
Returns the updated user, the returned streak count and the `StreakHistory`
rows written by the call. -/
def update_streak (cfg : Config) (today : Day) (u : User) :
    User × Int × List StreakHistory :=
  match u.last_activity_date with
  | none =>
      ({ u with current_streak := 1, longest_streak := max u.longest_streak 1 },
       1, [])
  | some last_activity =>
      let days_gap : Int := today - last_activity
      if days_gap = 0 then
        (u, u.current_streak, [])
      else if days_gap = 1 then
        let u' := { u with current_streak := u.current_streak + 1,
                           longest_streak := max u.longest_streak (u.current_streak + 1) }
        (u', u'.current_streak, [])
      else if days_gap = 2 && is_weekend_recovery_valid cfg today last_activity then
        let u' := { u with current_streak := u.current_streak + 1,
                           longest_streak := max u.longest_streak (u.current_streak + 1) }
        (u', u'.current_streak,
         [{ user_id := u.id, streak_count := u'.current_streak,
            recovery_used := true, broken := false }])
      else
        let broken_rows :=
          if u.current_streak > 0 then
            [{ user_id := u.id, streak_count := u.current_streak,
               recovery_used := false, broken := true : StreakHistory }]
          else []
        ({ u with current_streak := 1, longest_streak := max u.longest_streak 1 },
         1, broken_rows)

/-- The engine-relevant columns of an `ActivityCompletion` row.  The
`activity` relationship is modelled by the skill of the joined activity;
`none` models a completion whose `activity` relationship is absent. -/
structure Completion where
  activity_id : Int
  activity_skill : Option Skill
  score : ℚ
  points_earned : Int
  completed_at : Day
deriving DecidableEq

/-- The engine-relevant columns of a `SkillProgress` row. -/
structure SkillProgress where
  user_id : Int
  previous_level : ℚ
  new_level : ℚ
  adjustment : ℚ
  trigger_count : Nat
deriving DecidableEq

/-- `SkillAnalyzer._get_score_adjustment`
(`core/algorithms/skill_analyzer.py`): first matching range of the
configured table wins; no match falls through to `0.0`. -/
def get_score_adjustment (cfg : Config) (score : ℚ) : ℚ :=
  match cfg.SCORE_ADJUSTMENTS.find?
      (fun e => decide (e.1.1 ≤ score) && decide (score ≤ e.1.2)) with
  | some e => e.2
  | none => 0

/-- `SkillAnalyzer.analyze_and_update_skill`
(`core/algorithms/skill_analyzer.py`).  `completions` is the repository
result of `get_user_completions(user_id, limit=100)`: the user's
completions, most recent first; the limit is applied here.  Returns the
updated user and the recorded `SkillProgress` row, or `none` when there are
not enough completions for the skill. -/
def analyze_and_update_skill (cfg : Config) (u : User) (skill : Skill)
    (completions : List Completion) : Option (User × SkillProgress) :=
  let all_completions := completions.take 100
  let skill_completions :=
    all_completions.filter (fun c => decide (c.activity_skill = some skill))
  if skill_completions.length < cfg.SKILL_ANALYSIS_TRIGGER_COUNT then none
  else
    let recent_scores := (skill_completions.take 10).map (·.score)
    let avg_score := recent_scores.sum / (recent_scores.length : ℚ)
    let adjustment := get_score_adjustment cfg avg_score
    let current_level := u.get_skill_level skill
    let new_level :=
      current_level * (1 - cfg.SKILL_MOVING_AVERAGE_ALPHA) +
        adjustment * cfg.SKILL_MOVING_AVERAGE_ALPHA
    let change := new_level - current_level
    let max_change := cfg.SKILL_MAX_CHANGE_PER_UPDATE
    let new_level :=
      if |change| > max_change then
        current_level + (if change > 0 then max_change else -max_change)
      else new_level
    let new_level := max 0 (min 9 new_level)
    some (u.set_skill_level skill new_level,
      { user_id := u.id, previous_level := current_level,
        new_level := new_level, adjustment := adjustment,
        trigger_count := skill_completions.length })

/-- The engine-relevant columns of an `IncentiveUnlock` row. -/
structure IncentiveUnlock where
  user_id : Int
  incentive_type : IncentiveType
  criteria_met : String
deriving DecidableEq

/-- `IncentiveManager._should_unlock_career_counseling_t1`
(`core/algorithms/incentive_manager.py`): streak OR activities OR points. -/
def should_unlock_career_counseling_t1 (cfg : Config) (u : User) : Bool :=
  decide (u.current_streak ≥ cfg.INCENTIVE_TIER1_STREAK) ||
  decide (u.total_activities ≥ cfg.INCENTIVE_TIER1_ACTIVITIES) ||
  decide (u.total_points ≥ cfg.INCENTIVE_TIER1_POINTS)

/-- `IncentiveManager._should_unlock_career_counseling_t2`. -/
def should_unlock_career_counseling_t2 (cfg : Config) (u : User) : Bool :=
  decide (u.current_streak ≥ cfg.INCENTIVE_TIER2_STREAK) ||
  decide (u.total_activities ≥ cfg.INCENTIVE_TIER2_ACTIVITIES) ||
  decide (u.total_points ≥ cfg.INCENTIVE_TIER2_POINTS)

/-- `IncentiveManager._should_unlock_premium_content`: streak threshold AND
every skill has at least the configured number of completions among the
user's completions (repository limit 1000, most recent first). -/
def should_unlock_premium_content (cfg : Config) (u : User)
    (completions : List Completion) : Bool :=
  if u.current_streak < cfg.INCENTIVE_PREMIUM_STREAK then false
  else
    let all_completions := completions.take 1000
    Skill.all.all (fun skill =>
      decide (cfg.INCENTIVE_PREMIUM_SKILL_ATTEMPTS ≤
        (all_completions.filter
          (fun c => decide (c.activity_skill = some skill))).length))

/-- `IncentiveManager._unlock_incentive`: a no-op returning `none` when an
unlock row for this `(user, incentive_type)` already exists, otherwise
appends a new unlock row and returns it. -/
def unlock_incentive (u : User) (incentive_type : IncentiveType)
    (criteria_description : String) (unlocks : List IncentiveUnlock) :
    Option IncentiveUnlock × List IncentiveUnlock :=
  if unlocks.any (fun r =>
      decide (r.user_id = u.id) && decide (r.incentive_type = incentive_type)) then
    (none, unlocks)
  else
    let unlock : IncentiveUnlock :=
      { user_id := u.id, incentive_type := incentive_type,
        criteria_met := criteria_description }
    (some unlock, unlocks ++ [unlock])

/-- `IncentiveManager.check_and_unlock_incentives`: tries the three rules in
order, collecting the newly created unlock rows. -/
def check_and_unlock_incentives (cfg : Config) (u : User)
    (completions : List Completion) (unlocks : List IncentiveUnlock) :
    List IncentiveUnlock × List IncentiveUnlock :=
  let p1 :=
    if should_unlock_career_counseling_t1 cfg u then
      unlock_incentive u .career_counseling_t1 "Career Counseling Tier 1" unlocks
    else (none, unlocks)
  let p2 :=
    if should_unlock_career_counseling_t2 cfg u then
      unlock_incentive u .career_counseling_t2 "Career Counseling Tier 2" p1.2
    else (none, p1.2)
  let p3 :=
    if should_unlock_premium_content cfg u completions then
      unlock_incentive u .premium_content "Premium Content Access" p2.2
    else (none, p2.2)
  (([p1.1, p2.1, p3.1].filterMap id), p3.2)

/-- The per-user state touched by `ProgressService.record_activity_completion`:
the user row, the user's completion rows (most recent first), the user's
incentive unlock rows and the streak history ledger. -/
structure ProgressState where
  user : User
  completions : List Completion
  unlocks : List IncentiveUnlock
  streak_history : List StreakHistory
deriving DecidableEq

/-- The parts of the result dict of `record_activity_completion` the claims
are about. -/
structure CompletionResult where
  current_streak : Int
  skill_analyzed : Bool
  incentives_unlocked : List IncentiveUnlock
deriving DecidableEq

/-- `ProgressService.record_activity_completion`
(`core/services/progress_service.py`): adds the earned points, increments
the activity counter, overwrites `last_activity_date` with the completion's
`completed_at`, then runs the streak update, the conditional skill analysis
and the incentive check, in that order. -/
def record_activity_completion (cfg : Config) (today : Day)
    (completion : Completion) (st : ProgressState) :
    CompletionResult × ProgressState :=
  let u0 := st.user
  let u1 := { u0 with
    total_points := u0.total_points + completion.points_earned,
    total_activities := u0.total_activities + 1,
    last_activity_date := some completion.completed_at }
  let step := update_streak cfg today u1
  let u2 := step.1
  let new_streak := step.2.1
  let analysis :=
    match completion.activity_skill with
    | some skill =>
        if u2.total_activities % (cfg.SKILL_ANALYSIS_TRIGGER_COUNT : Int) = 0 then
          match analyze_and_update_skill cfg u2 skill st.completions with
          | some (u', _) => (u', true)
          | none => (u2, false)
        else (u2, false)
    | none => (u2, false)
  let u3 := analysis.1
  let incentives := check_and_unlock_incentives cfg u3 st.completions st.unlocks
  ({ current_streak := new_streak, skill_analyzed := analysis.2,
     incentives_unlocked := incentives.1 },
   { user := u3, completions := st.completions, unlocks := incentives.2,
     streak_history := st.streak_history ++ step.2.2 })

/-- The engine-relevant columns of an `Activity` row. -/
structure Activity where
  id : Int
  skill : Skill
  duration_minutes : Int
deriving DecidableEq

/-- The engine-relevant columns of a `DailyGoal` row. -/
structure DailyGoal where
  user_id : Int
  activity_id : Int
  assigned_date : Day
  target_skill : Skill
  skill_gap : ℚ
  priority_score : ℚ
deriving DecidableEq

/-- `GoalRepository.get_today_goal` (`data/repositories/goal_repository.py`):
the first stored goal of the user whose `assigned_date` falls on today's
calendar day. -/
def get_today_goal (today : Day) (user_id : Int) (goals : List DailyGoal) :
    Option DailyGoal :=
  (goals.filter (fun g =>
    decide (g.user_id = user_id) && decide (g.assigned_date = today))).head?

/-- Value lookup in an association list, mirroring Python `dict.get(k, 0)`
for the skill-keyed dicts of the goal algorithm. -/
def assoc_get (l : List (Skill × ℚ)) (skill : Skill) : ℚ :=
  match l.find? (fun p => decide (p.1 = skill)) with
  | some p => p.2
  | none => 0

/-- `GoalAssignmentAlgorithm._calculate_skill_gaps`: `max 0 (target − current)`
per skill, in skill enumeration order. -/
def calculate_skill_gaps (u : User) : List (Skill × ℚ) :=
  Skill.all.map (fun skill => (skill, max 0 (u.target_score - u.get_skill_level skill)))

/-- `GoalAssignmentAlgorithm._calculate_recency_penalty`: days since the most
recent completion of the skill among `get_recent_completions(days=30,
limit=10)`, times the per-day weight; a fixed 30-day penalty when the skill
has no completion in that window. -/
def calculate_recency_penalty (cfg : Config) (today : Day)
    (completions : List Completion) (skill : Skill) : ℚ :=
  let recent_completions :=
    (completions.filter (fun c => decide (today - 30 ≤ c.completed_at))).take 10
  let skill_completions :=
    recent_completions.filter (fun c => decide (c.activity_skill = some skill))
  match skill_completions.head? with
  | none => 30 * cfg.GOAL_RECENCY_PENALTY
  | some last_completion =>
      ((today - last_completion.completed_at : Int) : ℚ) * cfg.GOAL_RECENCY_PENALTY

/-- `GoalAssignmentAlgorithm._calculate_priority_scores`:
`gap × scaling + recency penalty` per skill. -/
def calculate_priority_scores (cfg : Config) (today : Day)
    (completions : List Completion) (u : User)
    (skill_gaps : List (Skill × ℚ)) : List (Skill × ℚ) :=
  Skill.all.map (fun skill =>
    (skill, assoc_get skill_gaps skill * cfg.GOAL_PRIORITY_SCALING +
      calculate_recency_penalty cfg today completions skill))

/-- `GoalAssignmentAlgorithm._apply_rotation_constraint`: halve the priority
of every skill targeted by one of yesterday's goals. -/
def apply_rotation_constraint (today : Day) (goals : List DailyGoal) (u : User)
    (priority_scores : List (Skill × ℚ)) : List (Skill × ℚ) :=
  let yesterday_goals := goals.filter (fun g =>
    decide (g.user_id = u.id) && decide (g.assigned_date = today - 1))
  priority_scores.map (fun p =>
    if yesterday_goals.any (fun g => decide (g.target_skill = p.1)) then
      (p.1, p.2 * 0.5)
    else p)

/-- `GoalAssignmentAlgorithm._select_target_skill`: among the skills with
strictly positive priority, the first (in iteration order) with the maximal
score, mirroring Python `max(d, key=d.get)`; `none` when all are zero. -/
def select_target_skill (priority_scores : List (Skill × ℚ)) : Option Skill :=
  let non_zero_scores := priority_scores.filter (fun p => decide (0 < p.2))
  match non_zero_scores with
  | [] => none
  | h :: t => some ((t.foldl (fun best p => if best.2 < p.2 then p else best) h).1)

/-- `GoalAssignmentAlgorithm._find_eligible_activities`: the skill's
activities (repository limit 1000) whose duration lies in the configured
daily-goal window. -/
def find_eligible_activities (cfg : Config) (activities : List Activity)
    (skill : Skill) : List Activity :=
  let all_activities := (activities.filter (fun a => decide (a.skill = skill))).take 1000
  all_activities.filter (fun a =>
    decide (cfg.DAILY_GOAL_DURATION_MIN ≤ a.duration_minutes) &&
    decide (a.duration_minutes ≤ cfg.DAILY_GOAL_DURATION_MAX))

/-- `GoalAssignmentAlgorithm._weighted_activity_selection`: weight 1 for
activities completed in the last 7 days (`get_recent_completions(days=7,
limit=20)`), weight 3 otherwise; `pick` is the injected
`random.choices` draw.  Returns `none` on an empty candidate list or zero
total weight. -/
def weighted_activity_selection (today : Day) (completions : List Completion)
    (pick : List Activity → List Nat → Option Activity) (u : User)
    (activities : List Activity) : Option Activity :=
  if activities.isEmpty then none
  else
    let recent_completions :=
      (completions.filter (fun c => decide (today - 7 ≤ c.completed_at))).take 20
    let recent_activity_ids := recent_completions.map (·.activity_id)
    let weights := activities.map (fun a =>
      if recent_activity_ids.contains a.id then 1 else 3)
    if 0 < weights.sum then pick activities weights else none

/-- `GoalAssignmentAlgorithm.assign_daily_goal`
(`core/algorithms/goal_assignment.py`).  `pick` and `choice` are the two
injected randomness sources (`random.choices` and the `random.choice`
fallback; `choice` returning `none` models only the fallback's crash on an
empty sequence, which the emptiness guard rules out).  Returns the goal
handed to the caller together with the updated goal store. -/
def assign_daily_goal (cfg : Config) (today : Day)
    (pick : List Activity → List Nat → Option Activity)
    (choice : List Activity → Option Activity) (u : User)
    (activities : List Activity) (completions : List Completion)
    (goals : List DailyGoal) : Option DailyGoal × List DailyGoal :=
  match get_today_goal today u.id goals with
  | some today_goal => (some today_goal, goals)
  | none =>
    let skill_gaps := calculate_skill_gaps u
    if skill_gaps.isEmpty then (none, goals)
    else
      let priority_scores := calculate_priority_scores cfg today completions u skill_gaps
      let priority_scores := apply_rotation_constraint today goals u priority_scores
      match select_target_skill priority_scores with
      | none => (none, goals)
      | some target_skill =>
        let eligible_activities := find_eligible_activities cfg activities target_skill
        if eligible_activities.isEmpty then (none, goals)
        else
          let selected_activity :=
            match weighted_activity_selection today completions pick u eligible_activities with
            | some a => some a
            | none => choice eligible_activities
          match selected_activity with
          | none => (none, goals)
          | some selected =>
            let goal : DailyGoal :=
              { user_id := u.id, activity_id := selected.id,
                assigned_date := today, target_skill := target_skill,
                skill_gap := assoc_get skill_gaps target_skill,
                priority_score := assoc_get priority_scores target_skill }
            (some goal, goals ++ [goal])

/-- The engine-relevant columns of a `LeaderboardEntry` row. -/
structure LeaderboardEntry where
  user_id : Int
  target_score_group : ℚ
  timeline_group : TimelineGroup
  rank : Nat
  consistency_score : ℚ
  active_days : Int
  current_streak : Int
  goal_completion_rate : ℚ
deriving DecidableEq

/-- `LeaderboardRanker._get_score_groups`
(`core/algorithms/leaderboard_ranker.py`). -/
def get_score_groups : List ℚ := [5.0, 6.0, 6.5, 7.0, 7.5, 8.0, 8.5, 9.0]

/-- `UserRepository.get_users_by_target_score_group`
(`data/repositories/user_repository.py`): the users whose `target_score`
satisfies `min_score <= target_score <= max_score` (both bounds
inclusive). -/
def get_users_by_target_score_group (min_score max_score : ℚ)
    (users : List User) : List User :=
  users.filter (fun u =>
    decide (min_score ≤ u.target_score) && decide (u.target_score ≤ max_score))

/-- Python `round(x, 1)` on the consistency score, modelled as rounding
`10 x` to the nearest integer (Python's float rounding breaks exact ties
to even where `round` rounds half away; no claim depends on a tie). -/
def round1 (x : ℚ) : ℚ := (round (10 * x) : ℤ) / 10

/-- `LeaderboardRanker._calculate_consistency_score`.  `get_active_days` and
`get_completion_rate` are the repository queries, supplied as functions of
the user id. -/
def calculate_consistency_score (cfg : Config) (get_active_days : Int → Int)
    (get_completion_rate : Int → ℚ) (u : User) : ℚ :=
  let active_days := get_active_days u.id
  let active_days_score :=
    ((active_days : ℚ) / (cfg.LEADERBOARD_PERIOD_DAYS : ℚ)) * 100 *
      cfg.LEADERBOARD_ACTIVE_DAYS_WEIGHT
  let streak_score :=
    min ((u.current_streak : ℚ) / 30) 1 * 100 * cfg.LEADERBOARD_STREAK_WEIGHT
  let completion_score :=
    get_completion_rate u.id * 100 * cfg.LEADERBOARD_COMPLETION_WEIGHT
  round1 (active_days_score + streak_score + completion_score)

/-- `LeaderboardRepository.delete_old_entries`: removes every stored entry of
the `(score group, timeline group)` pair. -/
def delete_old_entries (target_score_group : ℚ) (timeline_group : TimelineGroup)
    (board : List LeaderboardEntry) : List LeaderboardEntry :=
  board.filter (fun e =>
    !(decide (e.target_score_group = target_score_group) &&
      decide (e.timeline_group = timeline_group)))

/-- The cohort of `_calculate_group_leaderboard`: the repository score-group
query further filtered on the timeline group. -/
def group_users (target_score_group : ℚ) (timeline_group : TimelineGroup)
    (users : List User) : List User :=
  (get_users_by_target_score_group (target_score_group - 0.5) target_score_group
      users).filter (fun u => decide (u.preparation_timeline = timeline_group))

/-- `LeaderboardRanker._calculate_group_leaderboard`: returns early on an
empty cohort; otherwise scores the cohort, keeps the strictly positive
scores, sorts them descending (stably), deletes the cohort's old entries and
inserts the freshly ranked set.  Returns the created count and the updated
entry store. -/
def calculate_group_leaderboard (cfg : Config) (get_active_days : Int → Int)
    (get_completion_rate : Int → ℚ) (target_score_group : ℚ)
    (timeline_group : TimelineGroup) (users : List User)
    (board : List LeaderboardEntry) : Nat × List LeaderboardEntry :=
  let cohort := group_users target_score_group timeline_group users
  if cohort.isEmpty then (0, board)
  else
    let entries := (cohort.map (fun u =>
      (u, calculate_consistency_score cfg get_active_days get_completion_rate u))).filter
        (fun p => decide (0 < p.2))
    let entries := entries.mergeSort (fun a b => decide (b.2 ≤ a.2))
    let board := delete_old_entries target_score_group timeline_group board
    let new_entries := (List.enumFrom 1 entries).map (fun p =>
      { user_id := p.2.1.id, target_score_group := target_score_group,
        timeline_group := timeline_group, rank := p.1,
        consistency_score := p.2.2, active_days := get_active_days p.2.1.id,
        current_streak := p.2.1.current_streak,
        goal_completion_rate := get_completion_rate p.2.1.id : LeaderboardEntry })
    (new_entries.length, board ++ new_entries)

/-! ### Concrete sample data used by witnesses and counterexamples -/

/-- A user whose last activity fell on a Friday (day 4, weekday 4), with a
five-day streak, about to return on the following Monday (day 7). -/
def friday_user : User :=
  { id := 1, target_score := 7, preparation_timeline := .medium_term,
    reading_level := 6, writing_level := 5, listening_level := 6.5,
    speaking_level := 6.2, total_points := 40, current_streak := 5,
    longest_streak := 5, last_activity_date := some 4,
    total_activities := 12 }

/-- Ten completions of the reading skill, each scored 92, used as concrete
input of the skill-estimator witnesses. -/
def ten_92_completions : List Completion :=
  List.replicate 10
    { activity_id := 1, activity_skill := some .reading, score := 92,
      points_earned := 9, completed_at := 0 }

/-- A user at reading level 6.0, used by the skill-estimator witnesses. -/
def reading_6_user : User :=
  { id := 2, target_score := 7, preparation_timeline := .short_term,
    reading_level := 6, writing_level := 0, listening_level := 0,
    speaking_level := 0, total_points := 90, current_streak := 1,
    longest_streak := 1, last_activity_date := some 0,
    total_activities := 10 }

/-- The reassessment result at the C8 witness input. -/
def skill_92_result : User × SkillProgress :=
  (reading_6_user.set_skill_level .reading (11/2),
   { user_id := 2, previous_level := 6, new_level := 11/2,
     adjustment := 0.3, trigger_count := 10 })

/-- A goal already assigned to user 1 on day 0, for the C9 witness. -/
def sample_goal : DailyGoal :=
  { user_id := 1, activity_id := 5, assigned_date := 0,
    target_skill := .reading, skill_gap := 1, priority_score := 2 }

/-- A user whose target score sits exactly on the shared boundary 6.0 of the
score buckets 6.0 and 6.5. -/
def boundary_user : User :=
  { id := 3, target_score := 6, preparation_timeline := .short_term,
    reading_level := 0, writing_level := 0, listening_level := 0,
    speaking_level := 0, total_points := 0, current_streak := 0,
    longest_streak := 0, last_activity_date := none, total_activities := 0 }

/-- A leaderboard entry left over from an earlier compilation of the cohort
(score group 5.0, short term). -/
def stale_entry : LeaderboardEntry :=
  { user_id := 9, target_score_group := 5, timeline_group := .short_term,
    rank := 1, consistency_score := 50, active_days := 10,
    current_streak := 3, goal_completion_rate := 1 }

/-! ### Supporting lemmas -/

theorem set_skill_level_current_streak (u : User) (skill : Skill) (v : ℚ) :
    (u.set_skill_level skill v).current_streak = u.current_streak := by
  cases skill <;> rfl

theorem set_skill_level_longest_streak (u : User) (skill : Skill) (v : ℚ) :
    (u.set_skill_level skill v).longest_streak = u.longest_streak := by
  cases skill <;> rfl

theorem update_streak_same_day (cfg : Config) (today : Day) (u : User)
    (h : u.last_activity_date = some today) :
    update_streak cfg today u = (u, u.current_streak, []) := by
  unfold update_streak
  rw [h]
  simp

theorem analyze_preserves_streaks (cfg : Config) (u : User) (skill : Skill)
    (completions : List Completion) (r : User × SkillProgress)
    (h : analyze_and_update_skill cfg u skill completions = some r) :
    r.1.current_streak = u.current_streak ∧
      r.1.longest_streak = u.longest_streak := by
  simp only [analyze_and_update_skill] at h
  split at h
  · exact absurd h (by simp)
  · rw [Option.some.injEq] at h
    subst h
    exact ⟨set_skill_level_current_streak .., set_skill_level_longest_streak ..⟩

/-! ### Claims about the streak tracker -/

/-- Claim C7: any single streak update (Start, No-op, Continue, Recover or
Break) started from a state with `longest_streak ≥ current_streak` produces
a state that still satisfies `longest_streak ≥ current_streak`. -/
theorem update_streak_preserves_longest_ge_current
    (cfg : Config) (today : Day) (u : User)
    (h : u.current_streak ≤ u.longest_streak) :
    (update_streak cfg today u).1.current_streak ≤
      (update_streak cfg today u).1.longest_streak := by
  unfold update_streak
  cases hl : u.last_activity_date with
  | none => simp
  | some last_activity =>
    dsimp only
    split
    · exact h
    · split
      · simp
      · split
        · simp
        · simp

/-- Witness for C7 at a concrete state. -/
theorem update_streak_preserves_longest_ge_current_witness :
    (update_streak Config.default 6
        { id := 1, target_score := 7, preparation_timeline := .medium_term,
          reading_level := 6, writing_level := 5, listening_level := 6.5,
          speaking_level := 6.2, total_points := 40, current_streak := 5,
          longest_streak := 8, last_activity_date := some 5,
          total_activities := 12 }).1.current_streak ≤
      (update_streak Config.default 6
        { id := 1, target_score := 7, preparation_timeline := .medium_term,
          reading_level := 6, writing_level := 5, listening_level := 6.5,
          speaking_level := 6.2, total_points := 40, current_streak := 5,
          longest_streak := 8, last_activity_date := some 5,
          total_activities := 12 }).1.longest_streak :=
  update_streak_preserves_longest_ge_current Config.default 6 _ (by decide)

/-- Claim C2: evaluating the streak update at the claimed scenario (last
activity on a Friday, today the following Monday, weekend recovery enabled,
current streak 5) shows the code takes the Break branch: a Friday-to-Monday
return is a 3-day gap, but the Recover transition demands `days_gap == 2`
together with a Friday-to-Monday weekday pair, which no consistent calendar
can satisfy, so the streak resets to 1 and no recovery record is written. -/
theorem update_streak_friday_to_monday_breaks_streak :
    weekday 4 = 4 ∧ weekday 7 = 0 ∧
    Config.default.WEEKEND_RECOVERY_ENABLED = true ∧
    update_streak Config.default 7 friday_user =
      ({ friday_user with current_streak := 1, longest_streak := 5 }, 1,
       [{ user_id := 1, streak_count := 5, recovery_used := false,
          broken := true }]) :=
  ⟨rfl, rfl, rfl, rfl⟩

/-- Claim C1: a completion whose `completed_at` falls on the current UTC
calendar day leaves `current_streak` and `longest_streak` unchanged,
whatever the user's previous `last_activity_date` was:
`record_activity_completion` overwrites `last_activity_date` with
`completed_at` before the streak update, which then sees a zero-day gap. -/
theorem record_activity_completion_same_day_streak_noop
    (cfg : Config) (today : Day) (completion : Completion)
    (st : ProgressState) (h : completion.completed_at = today) :
    (record_activity_completion cfg today completion st).1.current_streak
        = st.user.current_streak ∧
      (record_activity_completion cfg today completion st).2.user.current_streak
        = st.user.current_streak ∧
      (record_activity_completion cfg today completion st).2.user.longest_streak
        = st.user.longest_streak := by
  subst h
  simp only [record_activity_completion]
  rw [update_streak_same_day _ _ _ rfl]
  dsimp only
  cases hsk : completion.activity_skill with
  | none => exact ⟨rfl, rfl, rfl⟩
  | some skill =>
    dsimp only
    split
    · cases ha : analyze_and_update_skill cfg
          { st.user with
            total_points := st.user.total_points + completion.points_earned,
            total_activities := st.user.total_activities + 1,
            last_activity_date := some completion.completed_at }
          skill st.completions with
      | none => exact ⟨rfl, rfl, rfl⟩
      | some r =>
        obtain ⟨h1, h2⟩ := analyze_preserves_streaks _ _ _ _ _ ha
        cases r
        exact ⟨rfl, h1, h2⟩
    · exact ⟨rfl, rfl, rfl⟩

/-- Witness for C1 at a concrete completion and state. -/
theorem record_activity_completion_same_day_streak_noop_witness :
    (record_activity_completion Config.default 10
        { activity_id := 3, activity_skill := some .reading, score := 80,
          points_earned := 8, completed_at := 10 }
        { user := friday_user, completions := [], unlocks := [],
          streak_history := [] }).1.current_streak
        = friday_user.current_streak ∧
      (record_activity_completion Config.default 10
        { activity_id := 3, activity_skill := some .reading, score := 80,
          points_earned := 8, completed_at := 10 }
        { user := friday_user, completions := [], unlocks := [],
          streak_history := [] }).2.user.current_streak
        = friday_user.current_streak ∧
      (record_activity_completion Config.default 10
        { activity_id := 3, activity_skill := some .reading, score := 80,
          points_earned := 8, completed_at := 10 }
        { user := friday_user, completions := [], unlocks := [],
          streak_history := [] }).2.user.longest_streak
        = friday_user.longest_streak :=
  record_activity_completion_same_day_streak_noop Config.default 10 _ _ rfl

/-! ### Claims about the skill estimator -/

theorem get_set_skill_level (u : User) (skill : Skill) (v : ℚ) :
    (u.set_skill_level skill v).get_skill_level skill = max 0 (min 9 v) := by
  cases skill <;> rfl

theorem clamp09_dist_le (c x : ℚ) (h0 : 0 ≤ c) (h9 : c ≤ 9) :
    |max 0 (min 9 x) - c| ≤ |x - c| := by
  rcases le_total x 0 with hx | hx
  · rw [min_eq_right (by linarith : x ≤ (9:ℚ)), max_eq_left hx,
      abs_of_nonpos (by linarith), abs_of_nonpos (by linarith)]
    linarith
  · rcases le_total 9 x with hx9 | hx9
    · rw [min_eq_left hx9, max_eq_right (by norm_num : (0:ℚ) ≤ 9),
        abs_of_nonneg (by linarith), abs_of_nonneg (by linarith)]
      linarith
    · rw [min_eq_right hx9, max_eq_right hx]

/-- Claim C3 counterexample: the arithmetic mean 89.5 is attainable by 10
scores in [0, 100] (five 90s and five 89s), lies in [0, 100], yet matches no
range of the configured score-to-adjustment table — the ranges stop at 89
and resume at 90 — so the lookup falls through to its no-match branch and
returns 0.0. -/
theorem score_adjustment_gap_at_89_5 :
    (List.replicate 5 (90:ℚ) ++ List.replicate 5 89).sum /
        (((List.replicate 5 (90:ℚ) ++ List.replicate 5 89).length : ℕ) : ℚ)
      = 179/2 ∧
    (0 ≤ (179/2 : ℚ) ∧ (179/2 : ℚ) ≤ 100) ∧
    (Config.default.SCORE_ADJUSTMENTS.filter
       (fun e => decide (e.1.1 ≤ (179/2 : ℚ)) && decide ((179/2 : ℚ) ≤ e.1.2))).length
      = 0 ∧
    get_score_adjustment Config.default (179/2) = 0 := by
  refine ⟨by norm_num, ⟨by norm_num, by norm_num⟩, ?_, ?_⟩
  · norm_num [Config.default]
  · norm_num [get_score_adjustment, Config.default]

/-- Claim C3 as amended: every integer mean in [0, 100] matches exactly one
range of the configured table, and the first-match lookup finds it; but
means of 10 scores need not be integers, and a mean falling in one of the
five one-point gaps between consecutive ranges (such as 89.5) matches no
range, so the lookup falls through to its 0.0 branch. -/
theorem score_adjustment_integer_partition (n : ℕ) (h : n ≤ 100) :
    (Config.default.SCORE_ADJUSTMENTS.filter
       (fun e => decide (e.1.1 ≤ (n:ℚ)) && decide ((n:ℚ) ≤ e.1.2))).length = 1 ∧
    (Config.default.SCORE_ADJUSTMENTS.find?
       (fun e => decide (e.1.1 ≤ (n:ℚ)) && decide ((n:ℚ) ≤ e.1.2))).isSome := by
  have h100 : (n:ℚ) ≤ 100 := by exact_mod_cast h
  have h0 : (0:ℚ) ≤ (n:ℚ) := by positivity
  rcases le_or_lt 90 n with h90 | h90
  · have t1 : (90:ℚ) ≤ (n:ℚ) := by exact_mod_cast h90
    have f1 : ¬((n:ℚ) ≤ 89) := by exact_mod_cast (by omega : ¬(n ≤ 89))
    have f2 : ¬((n:ℚ) ≤ 79) := by exact_mod_cast (by omega : ¬(n ≤ 79))
    have f3 : ¬((n:ℚ) ≤ 69) := by exact_mod_cast (by omega : ¬(n ≤ 69))
    have f4 : ¬((n:ℚ) ≤ 59) := by exact_mod_cast (by omega : ¬(n ≤ 59))
    have f5 : ¬((n:ℚ) ≤ 49) := by exact_mod_cast (by omega : ¬(n ≤ 49))
    constructor
    · simp [Config.default, List.filter, t1, f1, f2, f3, f4, f5, h100]
    · simp [Config.default, List.find?, t1, f1, f2, f3, f4, f5, h100]
  · have g1 : ¬((90:ℚ) ≤ (n:ℚ)) := by exact_mod_cast (by omega : ¬(90 ≤ n))
    rcases le_or_lt 80 n with h80 | h80
    · have t1 : (80:ℚ) ≤ (n:ℚ) := by exact_mod_cast h80
      have t2 : (n:ℚ) ≤ 89 := by exact_mod_cast (by omega : n ≤ 89)
      have f2 : ¬((n:ℚ) ≤ 79) := by exact_mod_cast (by omega : ¬(n ≤ 79))
      have f3 : ¬((n:ℚ) ≤ 69) := by exact_mod_cast (by omega : ¬(n ≤ 69))
      have f4 : ¬((n:ℚ) ≤ 59) := by exact_mod_cast (by omega : ¬(n ≤ 59))
      have f5 : ¬((n:ℚ) ≤ 49) := by exact_mod_cast (by omega : ¬(n ≤ 49))
      constructor
      · simp [Config.default, List.filter, g1, t1, t2, f2, f3, f4, f5]
      · simp [Config.default, List.find?, g1, t1, t2, f2, f3, f4, f5]
    · have g2 : ¬((80:ℚ) ≤ (n:ℚ)) := by exact_mod_cast (by omega : ¬(80 ≤ n))
      rcases le_or_lt 70 n with h70 | h70
      · have t1 : (70:ℚ) ≤ (n:ℚ) := by exact_mod_cast h70
        have t2 : (n:ℚ) ≤ 79 := by exact_mod_cast (by omega : n ≤ 79)
        have f3 : ¬((n:ℚ) ≤ 69) := by exact_mod_cast (by omega : ¬(n ≤ 69))
        have f4 : ¬((n:ℚ) ≤ 59) := by exact_mod_cast (by omega : ¬(n ≤ 59))
        have f5 : ¬((n:ℚ) ≤ 49) := by exact_mod_cast (by omega : ¬(n ≤ 49))
        constructor
        · simp [Config.default, List.filter, g1, g2, t1, t2, f3, f4, f5]
        · simp [Config.default, List.find?, g1, g2, t1, t2, f3, f4, f5]
      · have g3 : ¬((70:ℚ) ≤ (n:ℚ)) := by exact_mod_cast (by omega : ¬(70 ≤ n))
        rcases le_or_lt 60 n with h60 | h60
        · have t1 : (60:ℚ) ≤ (n:ℚ) := by exact_mod_cast h60
          have t2 : (n:ℚ) ≤ 69 := by exact_mod_cast (by omega : n ≤ 69)
          have f4 : ¬((n:ℚ) ≤ 59) := by exact_mod_cast (by omega : ¬(n ≤ 59))
          have f5 : ¬((n:ℚ) ≤ 49) := by exact_mod_cast (by omega : ¬(n ≤ 49))
          constructor
          · simp [Config.default, List.filter, g1, g2, g3, t1, t2, f4, f5]
          · simp [Config.default, List.find?, g1, g2, g3, t1, t2, f4, f5]
        · have g4 : ¬((60:ℚ) ≤ (n:ℚ)) := by exact_mod_cast (by omega : ¬(60 ≤ n))
          rcases le_or_lt 50 n with h50 | h50
          · have t1 : (50:ℚ) ≤ (n:ℚ) := by exact_mod_cast h50
            have t2 : (n:ℚ) ≤ 59 := by exact_mod_cast (by omega : n ≤ 59)
            have f5 : ¬((n:ℚ) ≤ 49) := by exact_mod_cast (by omega : ¬(n ≤ 49))
            constructor
            · simp [Config.default, List.filter, g1, g2, g3, g4, t1, t2, f5]
            · simp [Config.default, List.find?, g1, g2, g3, g4, t1, t2, f5]
          · have g5 : ¬((50:ℚ) ≤ (n:ℚ)) := by exact_mod_cast (by omega : ¬(50 ≤ n))
            have t2 : (n:ℚ) ≤ 49 := by exact_mod_cast (by omega : n ≤ 49)
            constructor
            · simp [Config.default, List.filter, g1, g2, g3, g4, g5, h0, t2]
            · simp [Config.default, List.find?, g1, g2, g3, g4, g5, h0, t2]

/-- Witness for C3's amended claim at the integer mean 95. -/
theorem score_adjustment_integer_partition_witness :
    (Config.default.SCORE_ADJUSTMENTS.filter
       (fun e => decide (e.1.1 ≤ ((95:ℕ):ℚ)) && decide (((95:ℕ):ℚ) ≤ e.1.2))).length = 1 ∧
    (Config.default.SCORE_ADJUSTMENTS.find?
       (fun e => decide (e.1.1 ≤ ((95:ℕ):ℚ)) && decide (((95:ℕ):ℚ) ≤ e.1.2))).isSome :=
  score_adjustment_integer_partition 95 (by decide)

/-- Claim C4: with current level 6.0, ten most recent completions for the
skill averaging exactly 92, alpha 0.3 and max change 0.5, the reassessment
maps the mean to adjustment +0.3, blends to 6.0 × 0.7 + 0.3 × 0.3 = 4.29,
and — because |4.29 − 6.0| = 1.71 exceeds 0.5 — clamps the step to the
boundary, storing exactly 5.5 (the clamp is applied after the blend). -/
theorem analyze_and_update_skill_scenario_92 (u : User) (skill : Skill)
    (completions : List Completion)
    (hlvl : u.get_skill_level skill = 6)
    (hlen : ((completions.take 100).filter
        (fun c => decide (c.activity_skill = some skill))).length = 10)
    (hsum : ((((completions.take 100).filter
        (fun c => decide (c.activity_skill = some skill))).take 10).map (·.score)).sum = 920) :
    analyze_and_update_skill Config.default u skill completions =
      some (u.set_skill_level skill (11/2),
        { user_id := u.id, previous_level := 6, new_level := 11/2,
          adjustment := 0.3, trigger_count := 10 }) := by
  have hlen10 : ((((completions.take 100).filter
      (fun c => decide (c.activity_skill = some skill))).take 10).map (·.score)).length = 10 := by
    simp [List.length_map, List.length_take, hlen]
  have havg : ((((completions.take 100).filter
      (fun c => decide (c.activity_skill = some skill))).take 10).map (·.score)).sum /
      (((((completions.take 100).filter
        (fun c => decide (c.activity_skill = some skill))).take 10).map (·.score)).length : ℚ)
      = 92 := by
    rw [hsum, hlen10]
    norm_num
  simp only [analyze_and_update_skill]
  rw [if_neg (by simp [hlen, Config.default])]
  rw [havg]
  rw [show get_score_adjustment Config.default 92 = 0.3 from by
    norm_num [get_score_adjustment, Config.default]]
  rw [hlvl, hlen]
  norm_num [Config.default, min_def, max_def, abs_eq_max_neg]

/-- Witness for C4 at the concrete user and completions. -/
theorem analyze_and_update_skill_scenario_92_witness :
    analyze_and_update_skill Config.default reading_6_user .reading ten_92_completions =
      some (reading_6_user.set_skill_level .reading (11/2),
        { user_id := reading_6_user.id, previous_level := 6, new_level := 11/2,
          adjustment := 0.3, trigger_count := 10 }) :=
  analyze_and_update_skill_scenario_92 reading_6_user .reading ten_92_completions
    rfl rfl (by norm_num [ten_92_completions, List.replicate])

/-- Distance bound of the max-change clamp: the clamped blend is within the
configured bound of the current level. -/
theorem clamped_blend_dist (c v0 mc : ℚ) (hmc : 0 ≤ mc) :
    |(if |v0 - c| > mc then c + (if v0 - c > 0 then mc else -mc) else v0) - c| ≤ mc := by
  split
  · split
    · rw [add_sub_cancel_left, abs_of_nonneg hmc]
    · rw [add_sub_cancel_left, abs_neg, abs_of_nonneg hmc]
  · rename_i hle
    push_neg at hle
    exact hle

theorem clamp09_idem (x : ℚ) : max 0 (min 9 (max 0 (min 9 x))) = max 0 (min 9 x) := by
  have h1 : (0:ℚ) ≤ max 0 (min 9 x) := le_max_left _ _
  have h2 : max 0 (min 9 x) ≤ 9 := max_le (by norm_num) (min_le_left _ _)
  rw [min_eq_right h2, max_eq_right h1]

/-- Claim C8: a successful reassessment started from a level in [0, 9]
stores a level in [0, 9] that differs from the previous level by at most the
configured maximum single-step change; the final range clamp never re-widens
the change beyond that bound. -/
theorem analyze_and_update_skill_bounded_change (cfg : Config) (u : User)
    (skill : Skill) (completions : List Completion) (r : User × SkillProgress)
    (hmc : 0 ≤ cfg.SKILL_MAX_CHANGE_PER_UPDATE)
    (h0 : 0 ≤ u.get_skill_level skill) (h9 : u.get_skill_level skill ≤ 9)
    (h : analyze_and_update_skill cfg u skill completions = some r) :
    0 ≤ r.2.new_level ∧ r.2.new_level ≤ 9 ∧
      |r.2.new_level - u.get_skill_level skill| ≤ cfg.SKILL_MAX_CHANGE_PER_UPDATE ∧
      r.1.get_skill_level skill = r.2.new_level := by
  simp only [analyze_and_update_skill] at h
  split at h
  · exact absurd h (by simp)
  · rw [Option.some.injEq] at h
    subst h
    dsimp only
    refine ⟨le_max_left _ _, max_le (by norm_num) (min_le_left _ _), ?_, ?_⟩
    · exact le_trans (clamp09_dist_le _ _ h0 h9) (clamped_blend_dist _ _ _ hmc)
    · rw [get_set_skill_level, clamp09_idem]

/-- Witness for C8 at the concrete user and completions. -/
theorem analyze_and_update_skill_bounded_change_witness :
    0 ≤ skill_92_result.2.new_level ∧ skill_92_result.2.new_level ≤ 9 ∧
      |skill_92_result.2.new_level - reading_6_user.get_skill_level .reading| ≤
        Config.default.SKILL_MAX_CHANGE_PER_UPDATE ∧
      skill_92_result.1.get_skill_level .reading = skill_92_result.2.new_level :=
  analyze_and_update_skill_bounded_change Config.default reading_6_user .reading
    ten_92_completions skill_92_result
    (by norm_num [Config.default])
    (by norm_num [reading_6_user, User.get_skill_level])
    (by norm_num [reading_6_user, User.get_skill_level])
    (by norm_num [analyze_and_update_skill, ten_92_completions, reading_6_user,
      skill_92_result, get_score_adjustment, Config.default, List.replicate,
      min_def, max_def, abs_eq_max_neg, User.set_skill_level, User.get_skill_level])

/-! ### Claims about the incentive evaluator -/

theorem unlock_incentive_has (u : User) (t : IncentiveType) (d : String)
    (l : List IncentiveUnlock) :
    ((unlock_incentive u t d l).2.any
      (fun r => decide (r.user_id = u.id) && decide (r.incentive_type = t))) = true := by
  unfold unlock_incentive
  split
  · rename_i h
    simpa using h
  · simp

theorem unlock_incentive_any_mono (u : User) (t : IncentiveType) (d : String)
    (l : List IncentiveUnlock) (p : IncentiveUnlock → Bool) (h : l.any p = true) :
    ((unlock_incentive u t d l).2.any p) = true := by
  unfold unlock_incentive
  split
  · simpa using h
  · simp [List.any_append, h]

theorem unlock_incentive_noop (u : User) (t : IncentiveType) (d : String)
    (l : List IncentiveUnlock)
    (h : (l.any (fun r => decide (r.user_id = u.id) && decide (r.incentive_type = t))) = true) :
    unlock_incentive u t d l = (none, l) := by
  unfold unlock_incentive
  rw [if_pos h]

/-- Claim C10: once a call to the evaluator has created unlock rows for all
satisfied threshold rules, a second call with unchanged metrics returns an
empty list of newly unlocked incentives and leaves the unlock store
untouched — already-unlocked incentives are skipped as a no-op. -/
theorem check_and_unlock_incentives_idempotent (cfg : Config) (u : User) (completions : List Completion)
    (unlocks : List IncentiveUnlock) :
    check_and_unlock_incentives cfg u completions
        (check_and_unlock_incentives cfg u completions unlocks).2 =
      ([], (check_and_unlock_incentives cfg u completions unlocks).2) := by
  have lift : ∀ (b : Bool) (t : IncentiveType) (d : String)
      (l : List IncentiveUnlock) (p : IncentiveUnlock → Bool), l.any p = true →
      (((if b then unlock_incentive u t d l else (none, l)).2).any p) = true := by
    intro b t d l p h
    cases b
    · simpa using h
    · simpa using unlock_incentive_any_mono u t d l p h
  set s1 := (check_and_unlock_incentives cfg u completions unlocks).2 with hs1
  have hs1' : s1 =
      ((if should_unlock_premium_content cfg u completions then
          unlock_incentive u .premium_content "Premium Content Access"
            ((if should_unlock_career_counseling_t2 cfg u then
                unlock_incentive u .career_counseling_t2 "Career Counseling Tier 2"
                  ((if should_unlock_career_counseling_t1 cfg u then
                      unlock_incentive u .career_counseling_t1 "Career Counseling Tier 1" unlocks
                    else (none, unlocks)).2)
              else (none,
                (if should_unlock_career_counseling_t1 cfg u then
                    unlock_incentive u .career_counseling_t1 "Career Counseling Tier 1" unlocks
                  else (none, unlocks)).2)).2)
        else (none,
          (if should_unlock_career_counseling_t2 cfg u then
              unlock_incentive u .career_counseling_t2 "Career Counseling Tier 2"
                ((if should_unlock_career_counseling_t1 cfg u then
                    unlock_incentive u .career_counseling_t1 "Career Counseling Tier 1" unlocks
                  else (none, unlocks)).2)
            else (none,
              (if should_unlock_career_counseling_t1 cfg u then
                  unlock_incentive u .career_counseling_t1 "Career Counseling Tier 1" unlocks
                else (none, unlocks)).2)).2)).2) := by
    rw [hs1]
    simp only [check_and_unlock_incentives]
  have f1 : should_unlock_career_counseling_t1 cfg u = true →
      s1.any (fun r => decide (r.user_id = u.id) &&
        decide (r.incentive_type = IncentiveType.career_counseling_t1)) = true := by
    intro hb
    rw [hs1']
    exact lift _ _ _ _ _ (lift _ _ _ _ _ (by rw [if_pos hb]; exact unlock_incentive_has ..))
  have f2 : should_unlock_career_counseling_t2 cfg u = true →
      s1.any (fun r => decide (r.user_id = u.id) &&
        decide (r.incentive_type = IncentiveType.career_counseling_t2)) = true := by
    intro hb
    rw [hs1']
    exact lift _ _ _ _ _ (by rw [if_pos hb]; exact unlock_incentive_has ..)
  have f3 : should_unlock_premium_content cfg u completions = true →
      s1.any (fun r => decide (r.user_id = u.id) &&
        decide (r.incentive_type = IncentiveType.premium_content)) = true := by
    intro hb
    rw [hs1']
    rw [if_pos hb]
    exact unlock_incentive_has ..
  simp only [check_and_unlock_incentives]
  have e1 : (if should_unlock_career_counseling_t1 cfg u then
      unlock_incentive u .career_counseling_t1 "Career Counseling Tier 1" s1
    else (none, s1)) = (none, s1) := by
    cases hb : should_unlock_career_counseling_t1 cfg u
    · simp
    · rw [if_pos rfl]
      exact unlock_incentive_noop _ _ _ _ (f1 hb)
  rw [e1]
  have e2 : (if should_unlock_career_counseling_t2 cfg u then
      unlock_incentive u .career_counseling_t2 "Career Counseling Tier 2" s1
    else (none, s1)) = (none, s1) := by
    cases hb : should_unlock_career_counseling_t2 cfg u
    · simp
    · rw [if_pos rfl]
      exact unlock_incentive_noop _ _ _ _ (f2 hb)
  rw [e2]
  have e3 : (if should_unlock_premium_content cfg u completions then
      unlock_incentive u .premium_content "Premium Content Access" s1
    else (none, s1)) = (none, s1) := by
    cases hb : should_unlock_premium_content cfg u completions
    · simp
    · rw [if_pos rfl]
      exact unlock_incentive_noop _ _ _ _ (f3 hb)
  rw [e3]
  simp

/-! ### Claims about the goal allocator -/

/-- Claim C9: `assign_daily_goal` is idempotent per (user, calendar day).
If a goal already exists for the user today, the call returns that goal
unchanged and creates no row; and after any successful call, a second call
on the same day — with any randomness — returns the same goal and leaves
the goal store unchanged, so at most one goal per user per day is created. -/
theorem assign_daily_goal_idempotent_per_day (cfg : Config) (today : Day)
    (pick pick' : List Activity → List Nat → Option Activity)
    (choice choice' : List Activity → Option Activity) (u : User)
    (activities : List Activity) (completions : List Completion)
    (goals : List DailyGoal) :
    (∀ g, get_today_goal today u.id goals = some g →
      assign_daily_goal cfg today pick choice u activities completions goals
        = (some g, goals)) ∧
    (∀ g goals',
      assign_daily_goal cfg today pick choice u activities completions goals
        = (some g, goals') →
      assign_daily_goal cfg today pick' choice' u activities completions goals'
        = (some g, goals')) := by
  constructor
  · intro g hg
    unfold assign_daily_goal
    rw [hg]
  · intro g goals' h
    unfold assign_daily_goal at h
    cases hg : get_today_goal today u.id goals with
    | some g0 =>
      rw [hg] at h
      rw [Prod.mk.injEq, Option.some.injEq] at h
      obtain ⟨rfl, rfl⟩ := h
      unfold assign_daily_goal
      rw [hg]
    | none =>
      rw [hg] at h
      dsimp only at h
      split at h
      · exact absurd h (by simp)
      · split at h
        · exact absurd h (by simp)
        · rename_i target_skill hsel
          split at h
          · exact absurd h (by simp)
          · split at h
            · exact absurd h (by simp)
            · rename_i selected hselected
              rw [Prod.mk.injEq, Option.some.injEq] at h
              obtain ⟨hgoal, hgoals⟩ := h
              subst hgoals
              have hfil : goals.filter (fun g => decide (g.user_id = u.id) &&
                  decide (g.assigned_date = today)) = [] := by
                have hh := hg
                unfold get_today_goal at hh
                exact List.head?_eq_none_iff.mp hh
              have hu : g.user_id = u.id := by rw [← hgoal]
              have hd : g.assigned_date = today := by rw [← hgoal]
              rw [hgoal]
              have hnext : get_today_goal today u.id (goals ++ [g]) = some g := by
                unfold get_today_goal
                rw [List.filter_append, hfil]
                simp [hu, hd]
              unfold assign_daily_goal
              rw [hnext]

/-- Witness for C9: a user who already has today's goal gets it back with
the store unchanged. -/
theorem assign_daily_goal_idempotent_per_day_witness :
    assign_daily_goal Config.default 0 (fun _ _ => none) (fun _ => none)
        friday_user [] [] [sample_goal]
      = (some sample_goal, [sample_goal]) :=
  (assign_daily_goal_idempotent_per_day Config.default 0
    (fun _ _ => none) (fun _ _ => none) (fun _ => none) (fun _ => none)
    friday_user [] [] _).1 _ rfl

/-! ### Claims about the leaderboard compiler -/

/-- Claim C5 counterexample: the repository query keeps both interval ends,
so a user with target score exactly 6.0 is a member of the cohort of score
group 6.5 (and of group 6.0) although 6.0 does not lie in the half-open
interval (6.5 − 0.5, 6.5]. -/
theorem score_group_boundary_double_membership :
    group_users 6 .short_term [boundary_user] = [boundary_user] ∧
    group_users 6.5 .short_term [boundary_user] = [boundary_user] ∧
    ¬((6.5:ℚ) - 0.5 < boundary_user.target_score) := by
  refine ⟨?_, ?_, ?_⟩ <;>
    norm_num [group_users, get_users_by_target_score_group, boundary_user,
      List.filter]

/-- Claim C5 as amended: cohort membership is the closed interval — a user
belongs to score group G exactly when G − 0.5 ≤ targetScore ≤ G (and the
timeline matches); consequently a user can belong to two score groups of one
compilation only when they are consecutive buckets G and G + 0.5 and the
user's target score is exactly the shared boundary G. -/
theorem score_group_closed_interval (G : ℚ) (t : TimelineGroup)
    (users : List User) (u : User) :
    (u ∈ group_users G t users ↔
      u ∈ users ∧ G - 0.5 ≤ u.target_score ∧ u.target_score ≤ G ∧
        u.preparation_timeline = t) ∧
    (∀ G1 G2, G1 ∈ get_score_groups → G2 ∈ get_score_groups → G1 < G2 →
      u ∈ group_users G1 t users → u ∈ group_users G2 t users →
      G2 = G1 + 0.5 ∧ u.target_score = G1) := by
  have mem_iff : ∀ (G' : ℚ), u ∈ group_users G' t users ↔
      u ∈ users ∧ G' - 0.5 ≤ u.target_score ∧ u.target_score ≤ G' ∧
        u.preparation_timeline = t := by
    intro G'
    simp [group_users, get_users_by_target_score_group, List.mem_filter,
      Bool.and_eq_true, decide_eq_true_eq, and_assoc]
    tauto
  refine ⟨mem_iff G, ?_⟩
  intro G1 G2 h1 h2 hlt hm1 hm2
  obtain ⟨-, hb1, hb2, -⟩ := (mem_iff G1).mp hm1
  obtain ⟨-, hb3, hb4, -⟩ := (mem_iff G2).mp hm2
  have hle : G2 ≤ G1 + 0.5 := by linarith
  have heq : G2 = G1 + 0.5 := by
    simp only [get_score_groups, List.mem_cons, List.not_mem_nil, or_false] at h1 h2
    rcases h1 with rfl | rfl | rfl | rfl | rfl | rfl | rfl | rfl <;>
      rcases h2 with rfl | rfl | rfl | rfl | rfl | rfl | rfl | rfl <;>
      norm_num at hlt hle ⊢
  refine ⟨heq, le_antisymm hb2 ?_⟩
  rw [heq] at hb3
  linarith

/-- Witness for C5's amended claim at score group 6 and the boundary user. -/
theorem score_group_closed_interval_witness :
    boundary_user ∈ group_users 6 .short_term [boundary_user] ↔
      boundary_user ∈ [boundary_user] ∧
        (6:ℚ) - 0.5 ≤ boundary_user.target_score ∧
        boundary_user.target_score ≤ 6 ∧
        boundary_user.preparation_timeline = .short_term :=
  (score_group_closed_interval 6 .short_term [boundary_user] boundary_user).1

/-- Claim C6 counterexample: compiling a cohort that has no users returns
early without deleting, so a stale entry from a previous compilation
survives even though the number of cohort users with positive consistency
score is zero. -/
theorem leaderboard_empty_cohort_keeps_stale_entries :
    group_users 5 .short_term ([] : List User) = [] ∧
    calculate_group_leaderboard Config.default (fun _ => 0) (fun _ => 0) 5
        .short_term [] [stale_entry] = (0, [stale_entry]) ∧
    (((calculate_group_leaderboard Config.default (fun _ => 0) (fun _ => 0) 5
        .short_term [] [stale_entry]).2.filter
        (fun e => decide (e.target_score_group = 5) &&
          decide (e.timeline_group = TimelineGroup.short_term))).map
        (fun e => e.user_id)).length = 1 ∧
    ((group_users 5 .short_term ([] : List User)).filter
        (fun u => decide (0 < calculate_consistency_score Config.default
          (fun _ => 0) (fun _ => 0) u))).length = 0 :=
  ⟨rfl, rfl, rfl, rfl⟩

/-- Claim C6 as amended: for a cohort with at least one user, compilation is
a full replace — the stored entries of the cohort afterwards are exactly one
per cohort user with strictly positive consistency score, every entry of a
previous compilation having been deleted first; but for a cohort with zero
users the function returns early without deleting, so stale entries of that
cohort survive. -/
theorem leaderboard_replace (cfg : Config) (gad : Int → Int) (gcr : Int → ℚ)
    (G : ℚ) (t : TimelineGroup) (users : List User)
    (board : List LeaderboardEntry) :
    (group_users G t users = [] →
      (calculate_group_leaderboard cfg gad gcr G t users board).2 = board) ∧
    (group_users G t users ≠ [] →
      (((calculate_group_leaderboard cfg gad gcr G t users board).2.filter
          (fun e => decide (e.target_score_group = G) && decide (e.timeline_group = t))).map
          (fun e => e.user_id)).Perm
        (((group_users G t users).filter
          (fun u => decide (0 < calculate_consistency_score cfg gad gcr u))).map
          (fun u => u.id))) := by
  constructor
  · intro h
    simp [calculate_group_leaderboard, h]
  · intro h
    simp only [calculate_group_leaderboard]
    rw [if_neg (by simpa [List.isEmpty_iff] using h)]
    dsimp only
    rw [List.filter_append]
    have hdel : (delete_old_entries G t board).filter
        (fun e => decide (e.target_score_group = G) && decide (e.timeline_group = t)) = [] := by
      simp [delete_old_entries, List.filter_filter]
    rw [hdel]
    have hkeep : ∀ (l : List (User × ℚ)),
        ((List.enumFrom 1 l).map (fun p =>
          { user_id := p.2.1.id, target_score_group := G,
            timeline_group := t, rank := p.1,
            consistency_score := p.2.2, active_days := gad p.2.1.id,
            current_streak := p.2.1.current_streak,
            goal_completion_rate := gcr p.2.1.id : LeaderboardEntry })).filter
          (fun e => decide (e.target_score_group = G) && decide (e.timeline_group = t))
        = (List.enumFrom 1 l).map (fun p =>
          { user_id := p.2.1.id, target_score_group := G,
            timeline_group := t, rank := p.1,
            consistency_score := p.2.2, active_days := gad p.2.1.id,
            current_streak := p.2.1.current_streak,
            goal_completion_rate := gcr p.2.1.id : LeaderboardEntry }) := by
      intro l
      rw [List.filter_eq_self]
      intro e he
      simp only [List.mem_map] at he
      obtain ⟨p, -, rfl⟩ := he
      simp
    rw [hkeep, List.nil_append, List.map_map]
    have henum : ∀ (l : List (User × ℚ)) (f : User × ℚ → Int),
        (List.enumFrom 1 l).map (fun p => f p.2) = l.map f := by
      intro l f
      calc (List.enumFrom 1 l).map (fun p => f p.2)
          = ((List.enumFrom 1 l).map Prod.snd).map f := by rw [List.map_map]; rfl
        _ = l.map f := by rw [List.enumFrom_map_snd]
    rw [show ((fun e : LeaderboardEntry => e.user_id) ∘ (fun p : Nat × (User × ℚ) =>
      { user_id := p.2.1.id, target_score_group := G,
        timeline_group := t, rank := p.1,
        consistency_score := p.2.2, active_days := gad p.2.1.id,
        current_streak := p.2.1.current_streak,
        goal_completion_rate := gcr p.2.1.id : LeaderboardEntry }))
      = (fun p : Nat × (User × ℚ) => p.2.1.id) from rfl]
    rw [henum _ (fun q : User × ℚ => q.1.id)]
    refine ((List.mergeSort_perm _ _).map _).trans ?_
    rw [List.filter_map]
    rw [List.map_map]
    rfl

/-- Witness for C6's amended claim: an empty cohort leaves the entry store
untouched. -/
theorem leaderboard_replace_witness :
    (calculate_group_leaderboard Config.default (fun _ => 0) (fun _ => 0) 5
        .short_term [] [stale_entry]).2 = [stale_entry] :=
  (leaderboard_replace Config.default (fun _ => 0) (fun _ => 0) 5
    .short_term [] [stale_entry]).1 rfl

end LeapIELTS
